import Mathlib

/-!
# Orbit camera controller

A shallow embedding of `src/js/OrbitControls.js`.  The controller keeps a camera
position and a look-at target and moves the camera on a sphere around the target
(`rotateLeft`, `rotateUp`), along the view direction (`dollyIn`, `dollyOut`) and
applies pending pan and zoom in `update`.

The methods are written over an arbitrary ordered field `α` and a record `JSMath α`
of the JavaScript `Math` functions, so every definition below is an ordinary
computable function.  The statements are proved for `α = ℝ` and the exact real
functions `realMath`.

`this.object.lookAt(this.target)` only rewrites the orientation of the camera; no
method embedded here reads the orientation, so it is not part of the state.
-/

namespace OrbitControls

/-- The JavaScript `Math` members used by the controller and by the three.js
classes it calls. -/
structure JSMath (α : Type) where
  sqrt : α → α
  sin : α → α
  cos : α → α
  acos : α → α
  atan2 : α → α → α
  PI : α

/-- Modelled from the spec: the three.js class `Vector3` (the library is not part
of `src/`), a triple of coordinates. -/
@[ext]
structure Vector3 (α : Type) where
  x : α
  y : α
  z : α

/-- Modelled from the spec: the three.js class `Spherical` (the library is not part
of `src/`): radius, polar angle `phi` measured from the positive y axis, azimuth
`theta` measured around the y axis from the positive z axis. -/
@[ext]
structure Spherical (α : Type) where
  radius : α
  phi : α
  theta : α

/-- The fields of `THREE.OrbitControls` read or written by the methods below,
together with `this.object.position`. -/
@[ext]
structure Controls (α : Type) where
  /-- The field `this.object.position`. -/
  position : Vector3 α
  target : Vector3 α
  enableDamping : Bool
  dampingFactor : α
  minDistance : α
  /-- The default is `Infinity`, the top element. -/
  maxDistance : WithTop α
  scale : α
  panOffset : Vector3 α

section Methods

variable {α : Type} [LinearOrderedField α]

/-- Modelled from the spec: three.js `Vector3.sub`. -/
def Vector3.sub (a b : Vector3 α) : Vector3 α :=
  ⟨a.x - b.x, a.y - b.y, a.z - b.z⟩

/-- Modelled from the spec: three.js `Vector3.add`. -/
def Vector3.add (a b : Vector3 α) : Vector3 α :=
  ⟨a.x + b.x, a.y + b.y, a.z + b.z⟩

/-- Modelled from the spec: three.js `Vector3.multiplyScalar`. -/
def Vector3.multiplyScalar (v : Vector3 α) (s : α) : Vector3 α :=
  ⟨v.x * s, v.y * s, v.z * s⟩

/-- Modelled from the spec: three.js `Vector3.divideScalar`,
`multiplyScalar(1 / scalar)`. -/
def Vector3.divideScalar (v : Vector3 α) (s : α) : Vector3 α :=
  v.multiplyScalar (1 / s)

/-- Modelled from the spec: three.js `Vector3.length`,
`Math.sqrt(x * x + y * y + z * z)`. -/
def Vector3.length (M : JSMath α) (v : Vector3 α) : α :=
  M.sqrt (v.x * v.x + v.y * v.y + v.z * v.z)

/-- Modelled from the spec: three.js `Vector3.normalize`,
`divideScalar(this.length() || 1)`. -/
def Vector3.normalize (M : JSMath α) (v : Vector3 α) : Vector3 α :=
  v.divideScalar (if v.length M = 0 then 1 else v.length M)

/-- Modelled from the spec: three.js `MathUtils.clamp(value, min, max)`,
`Math.max(min, Math.min(max, value))`. -/
def clamp (value lo hi : α) : α :=
  max lo (min hi value)

/-- Modelled from the spec: three.js `Spherical.setFromVector3`
(`setFromCartesianCoords`). -/
def Spherical.setFromVector3 (M : JSMath α) (v : Vector3 α) : Spherical α :=
  let radius := M.sqrt (v.x * v.x + v.y * v.y + v.z * v.z)
  if radius = 0 then
    ⟨radius, 0, 0⟩
  else
    ⟨radius, M.acos (clamp (v.y / radius) (-1) 1), M.atan2 v.x v.z⟩

/-- Modelled from the spec: three.js `Spherical.makeSafe`, which restricts `phi`
to lie between `EPS` and `Math.PI - EPS` with `EPS = 0.000001`. -/
def Spherical.makeSafe (M : JSMath α) (s : Spherical α) : Spherical α :=
  { s with phi := max 0.000001 (min (M.PI - 0.000001) s.phi) }

/-- Modelled from the spec: three.js `Vector3.setFromSpherical`
(`setFromSphericalCoords`). -/
def Vector3.setFromSpherical (M : JSMath α) (s : Spherical α) : Vector3 α :=
  let sinPhiRadius := M.sin s.phi * s.radius
  ⟨sinPhiRadius * M.sin s.theta, M.cos s.phi * s.radius, sinPhiRadius * M.cos s.theta⟩

/-- The method `rotateLeft(angle)`. -/
def rotateLeft (M : JSMath α) (angle : α) (c : Controls α) : Controls α :=
  let spherical := Spherical.setFromVector3 M (c.position.sub c.target)
  let spherical := { spherical with theta := spherical.theta - angle }
  let spherical := spherical.makeSafe M
  { c with position := (Vector3.setFromSpherical M spherical).add c.target }

/-- The method `rotateUp(angle)`.  The clamped polar angle is stored in `theta`,
as in the source. -/
def rotateUp (M : JSMath α) (angle : α) (c : Controls α) : Controls α :=
  let spherical := Spherical.setFromVector3 M (c.position.sub c.target)
  let spherical := { spherical with phi := spherical.phi - angle }
  let spherical := { spherical with theta := max 0.1 (min (M.PI - 0.1) spherical.phi) }
  { c with position := (Vector3.setFromSpherical M spherical).add c.target }

/-- The method `update()`. -/
def update (M : JSMath α) (c : Controls α) : Controls α :=
  let offset := c.position.sub c.target
  let targetDistance := offset.length M * c.scale
  let position := c.target.add ((offset.normalize M).multiplyScalar targetDistance)
  let panOffset :=
    if c.enableDamping = true then c.panOffset.multiplyScalar (1 - c.dampingFactor)
    else c.panOffset
  let scale :=
    if c.enableDamping = true then 1 + (c.scale - 1) * (1 - c.dampingFactor)
    else c.scale
  { c with
    position := position
    panOffset := panOffset
    scale := scale
    target := c.target.add panOffset }

/-- The method `dollyIn()`. -/
def dollyIn (M : JSMath α) (c : Controls α) : Controls α :=
  update M { c with scale := c.scale / 0.95 }

/-- The method `dollyOut()`. -/
def dollyOut (M : JSMath α) (c : Controls α) : Controls α :=
  update M { c with scale := c.scale * 0.95 }

/-- The method `reset()`. -/
def reset (M : JSMath α) (c : Controls α) : Controls α :=
  update M { c with target := ⟨0, 0, 0⟩, panOffset := ⟨0, 0, 0⟩, scale := 1 }

/-- The camera-to-target distance, `position.clone().sub(target).length()`, the
quantity `update` and `pan` call `targetDistance`. -/
def distance (M : JSMath α) (c : Controls α) : α :=
  (c.position.sub c.target).length M

/-- The azimuth of the camera offset, the `theta` that `Spherical.setFromVector3`
reads off `position - target`. -/
def azimuth (M : JSMath α) (c : Controls α) : α :=
  (Spherical.setFromVector3 M (c.position.sub c.target)).theta

/-- The polar angle of the camera offset, the `phi` that
`Spherical.setFromVector3` reads off `position - target`. -/
def polarAngle (M : JSMath α) (c : Controls α) : α :=
  (Spherical.setFromVector3 M (c.position.sub c.target)).phi

/-- The target displacement made by the `n`-th of a run of consecutive `update()`
calls (`n = 1` is the first call). -/
def displacement (M : JSMath α) (c : Controls α) (n : ℕ) : Vector3 α :=
  ((update M)^[n] c).target.sub ((update M)^[n - 1] c).target

/-- The field initialisers of the constructor (lines 9 to 20 of the source) for a
camera at `position`. -/
def defaults (position : Vector3 α) : Controls α where
  position := position
  target := ⟨0, 0, 0⟩
  enableDamping := false
  dampingFactor := 0.25
  minDistance := 0
  maxDistance := ⊤
  scale := 1
  panOffset := ⟨0, 0, 0⟩

/-- One call of a rotation method. -/
inductive Rotation (α : Type) where
  | left (angle : α)
  | up (angle : α)

/-- Run one rotation call. -/
def Rotation.apply (M : JSMath α) (r : Rotation α) (c : Controls α) : Controls α :=
  match r with
  | .left angle => rotateLeft M angle c
  | .up angle => rotateUp M angle c

/-- Run a finite sequence of `rotateLeft` and `rotateUp` calls, first call first. -/
def rotations (M : JSMath α) (rs : List (Rotation α)) (c : Controls α) : Controls α :=
  rs.foldl (fun c r => r.apply M c) c

/-- The constructor `THREE.OrbitControls(object, domElement)` for a camera at
`position`: the field initialisers, then `this.update()`. -/
def construct (M : JSMath α) (position : Vector3 α) : Controls α :=
  update M (defaults position)

/-- The settings `init` in `script.js` writes into the controls after constructing
them (`enableDamping = true`, `dampingFactor = 0.25`). -/
def configure (c : Controls α) : Controls α :=
  { c with enableDamping := true, dampingFactor := 0.25 }

/-- The settings `init` in `script.js` writes on a mobile device, on top of
`configure` (`minDistance = 40`, `maxDistance = 800`, `enableDamping = true`,
`dampingFactor = 0.35`). -/
def configureMobile (c : Controls α) : Controls α :=
  { configure c with
    minDistance := 40
    maxDistance := WithTop.some 800
    enableDamping := true
    dampingFactor := 0.35 }

end Methods

/-- The JavaScript `Math` functions over exact real arithmetic.  `Math.atan2(y, x)`
is the argument of `x + y i`, in the interval from `-π` (excluded) to `π`, with
`atan2(0, 0) = 0`.  The methods call `Math.sqrt` only on sums of squares and
`Math.acos` only on values clamped to lie between `-1` and `1`, where the real
functions agree with the JavaScript ones. -/
noncomputable def realMath : JSMath ℝ where
  sqrt := Real.sqrt
  sin := Real.sin
  cos := Real.cos
  acos := Real.arccos
  atan2 := fun y x => Complex.arg ⟨x, y⟩
  PI := Real.pi

/-! ## Auxiliary facts about the vector operations over the reals -/

section Auxiliary

@[simp] theorem realMath_sqrt (x : ℝ) : realMath.sqrt x = Real.sqrt x := rfl

@[simp] theorem realMath_sin (x : ℝ) : realMath.sin x = Real.sin x := rfl

@[simp] theorem realMath_cos (x : ℝ) : realMath.cos x = Real.cos x := rfl

@[simp] theorem realMath_acos (x : ℝ) : realMath.acos x = Real.arccos x := rfl

@[simp] theorem realMath_atan2 (y x : ℝ) : realMath.atan2 y x = Complex.arg ⟨x, y⟩ := rfl

@[simp] theorem realMath_PI : realMath.PI = Real.pi := rfl

theorem length_nonneg (v : Vector3 ℝ) : 0 ≤ v.length realMath :=
  Real.sqrt_nonneg _

theorem sumSq_nonneg (v : Vector3 ℝ) : 0 ≤ v.x * v.x + v.y * v.y + v.z * v.z := by
  nlinarith [mul_self_nonneg v.x, mul_self_nonneg v.y, mul_self_nonneg v.z]

theorem length_eq_zero_iff (v : Vector3 ℝ) : v.length realMath = 0 ↔ v = ⟨0, 0, 0⟩ := by
  constructor
  · intro h
    have h0 : v.x * v.x + v.y * v.y + v.z * v.z = 0 :=
      (Real.sqrt_eq_zero (sumSq_nonneg v)).1 h
    have hx : v.x = 0 := by nlinarith [mul_self_nonneg v.x, mul_self_nonneg v.y, mul_self_nonneg v.z]
    have hy : v.y = 0 := by nlinarith [mul_self_nonneg v.x, mul_self_nonneg v.y, mul_self_nonneg v.z]
    have hz : v.z = 0 := by nlinarith [mul_self_nonneg v.x, mul_self_nonneg v.y, mul_self_nonneg v.z]
    ext <;> assumption
  · rintro rfl
    simp [Vector3.length]

theorem length_multiplyScalar (v : Vector3 ℝ) (k : ℝ) :
    (v.multiplyScalar k).length realMath = |k| * v.length realMath := by
  have h : v.x * k * (v.x * k) + v.y * k * (v.y * k) + v.z * k * (v.z * k)
      = k ^ 2 * (v.x * v.x + v.y * v.y + v.z * v.z) := by ring
  simp only [Vector3.length, Vector3.multiplyScalar, realMath_sqrt]
  rw [h, Real.sqrt_mul (sq_nonneg k), Real.sqrt_sq_eq_abs]

theorem normalize_multiplyScalar (v : Vector3 ℝ) (k : ℝ) :
    (v.normalize realMath).multiplyScalar (v.length realMath * k) = v.multiplyScalar k := by
  by_cases h : v.length realMath = 0
  · have hv := (length_eq_zero_iff v).1 h
    subst hv
    simp [Vector3.normalize, Vector3.divideScalar, Vector3.multiplyScalar]
  · simp only [Vector3.normalize, Vector3.divideScalar, Vector3.multiplyScalar, if_neg h]
    ext <;> simp <;> field_simp <;> ring

theorem add_sub_self (t w : Vector3 ℝ) : (t.add w).sub t = w := by
  ext <;> simp [Vector3.add, Vector3.sub]

theorem add_zero_vec (t : Vector3 ℝ) : t.add ⟨0, 0, 0⟩ = t := by
  ext <;> simp [Vector3.add]

theorem length_z (z : ℝ) (hz : 0 ≤ z) : (Vector3.mk 0 0 z).length realMath = z := by
  simp only [Vector3.length, realMath_sqrt]
  rw [show (0 : ℝ) * 0 + 0 * 0 + z * z = z ^ 2 by ring, Real.sqrt_sq hz]

theorem update_position (c : Controls ℝ) :
    (update realMath c).position
      = c.target.add ((c.position.sub c.target).multiplyScalar c.scale) := by
  simp only [update, normalize_multiplyScalar]

theorem update_of_not_damping (c : Controls ℝ) (hd : c.enableDamping = false) :
    update realMath c =
      { c with
        position := c.target.add ((c.position.sub c.target).multiplyScalar c.scale)
        target := c.target.add c.panOffset } := by
  simp [update, normalize_multiplyScalar, hd]

theorem update_target_of_panOffset_zero (c : Controls ℝ) (hp : c.panOffset = ⟨0, 0, 0⟩) :
    (update realMath c).target = c.target := by
  cases hd : c.enableDamping <;>
    simp [update, hd, hp, Vector3.add, Vector3.multiplyScalar]

theorem distance_update (c : Controls ℝ) (hp : c.panOffset = ⟨0, 0, 0⟩) :
    distance realMath (update realMath c) = |c.scale| * distance realMath c := by
  rw [distance, update_position, update_target_of_panOffset_zero c hp, add_sub_self,
    length_multiplyScalar, distance]

/-- The `update()` that ends the constructor leaves the initial fields as they are. -/
theorem construct_eq_defaults (position : Vector3 ℝ) :
    construct realMath position = defaults position := by
  rw [construct, update_of_not_damping _ rfl]
  ext <;> simp [defaults, Vector3.add, Vector3.sub, Vector3.multiplyScalar]

theorem distance_defaults_z (z : ℝ) (hz : 0 ≤ z) (c : Controls ℝ)
    (hpos : c.position = ⟨0, 0, z⟩) (ht : c.target = ⟨0, 0, 0⟩) :
    distance realMath c = z := by
  have h : c.position.sub c.target = ⟨0, 0, z⟩ := by
    rw [hpos, ht]; ext <;> simp [Vector3.sub]
  rw [distance, h, length_z z hz]

theorem iterate_update_damping (c : Controls ℝ) (hd : c.enableDamping = true) (n : ℕ) :
    ((update realMath)^[n] c).enableDamping = true
      ∧ ((update realMath)^[n] c).dampingFactor = c.dampingFactor
      ∧ ((update realMath)^[n] c).panOffset
          = c.panOffset.multiplyScalar ((1 - c.dampingFactor) ^ n) := by
  induction n with
  | zero => exact ⟨hd, rfl, by ext <;> simp [Vector3.multiplyScalar]⟩
  | succ n ih =>
    obtain ⟨h1, h2, h3⟩ := ih
    rw [Function.iterate_succ_apply']
    refine ⟨by simp [update, h1], by simp [update, h2], ?_⟩
    simp only [update, h1, h2, h3, if_true, Vector3.multiplyScalar]
    ext <;> simp <;> ring

theorem displacement_succ (c : Controls ℝ) (hd : c.enableDamping = true) (n : ℕ) :
    displacement realMath c (n + 1)
      = c.panOffset.multiplyScalar ((1 - c.dampingFactor) ^ (n + 1)) := by
  obtain ⟨h1, h2, h3⟩ := iterate_update_damping c hd n
  have ht : ((update realMath)^[n + 1] c).target
      = ((update realMath)^[n] c).target.add
          (c.panOffset.multiplyScalar ((1 - c.dampingFactor) ^ (n + 1))) := by
    rw [Function.iterate_succ_apply']
    simp only [update, h1, h2, h3, if_true, Vector3.multiplyScalar]
    congr 1
    ext <;> simp <;> ring
  rw [displacement, ht, Nat.add_sub_cancel, add_sub_self]

theorem sub_add_self (w t : Vector3 ℝ) : (w.add t).sub t = w := by
  ext <;> simp [Vector3.add, Vector3.sub]

theorem setFromVector3_radius (v : Vector3 ℝ) :
    (Spherical.setFromVector3 realMath v).radius = v.length realMath := by
  unfold Spherical.setFromVector3 Vector3.length
  dsimp only
  split_ifs <;> rfl

theorem length_setFromSpherical (s : Spherical ℝ) :
    (Vector3.setFromSpherical realMath s).length realMath = |s.radius| := by
  have h1 := Real.sin_sq_add_cos_sq s.phi
  have h2 := Real.sin_sq_add_cos_sq s.theta
  have h : Real.sin s.phi * s.radius * Real.sin s.theta
        * (Real.sin s.phi * s.radius * Real.sin s.theta)
      + Real.cos s.phi * s.radius * (Real.cos s.phi * s.radius)
      + Real.sin s.phi * s.radius * Real.cos s.theta
        * (Real.sin s.phi * s.radius * Real.cos s.theta)
      = s.radius ^ 2 * (Real.sin s.phi ^ 2 * (Real.sin s.theta ^ 2 + Real.cos s.theta ^ 2)
          + Real.cos s.phi ^ 2) := by ring
  simp only [Vector3.length, Vector3.setFromSpherical, realMath_sqrt, realMath_sin,
    realMath_cos]
  rw [h, h2, mul_one, h1, mul_one, Real.sqrt_sq_eq_abs]

theorem distance_rotateLeft (angle : ℝ) (c : Controls ℝ) :
    distance realMath (rotateLeft realMath angle c) = distance realMath c := by
  simp only [distance, rotateLeft, sub_add_self, length_setFromSpherical,
    Spherical.makeSafe, setFromVector3_radius]
  exact abs_of_nonneg (length_nonneg _)

theorem distance_rotateUp (angle : ℝ) (c : Controls ℝ) :
    distance realMath (rotateUp realMath angle c) = distance realMath c := by
  simp only [distance, rotateUp, sub_add_self, length_setFromSpherical,
    setFromVector3_radius]
  exact abs_of_nonneg (length_nonneg _)

theorem azimuth_of_distance_eq_zero (c : Controls ℝ) (h : distance realMath c = 0) :
    azimuth realMath c = 0 := by
  have h0 : Real.sqrt ((c.position.sub c.target).x * (c.position.sub c.target).x
      + (c.position.sub c.target).y * (c.position.sub c.target).y
      + (c.position.sub c.target).z * (c.position.sub c.target).z) = 0 := h
  simp [azimuth, Spherical.setFromVector3, h0]

theorem azimuth_of_distance_ne_zero (c : Controls ℝ) (h : distance realMath c ≠ 0) :
    azimuth realMath c
      = Complex.arg ⟨(c.position.sub c.target).z, (c.position.sub c.target).x⟩ := by
  have h0 : ¬ Real.sqrt ((c.position.sub c.target).x * (c.position.sub c.target).x
      + (c.position.sub c.target).y * (c.position.sub c.target).y
      + (c.position.sub c.target).z * (c.position.sub c.target).z) = 0 := h
  simp [azimuth, Spherical.setFromVector3, h0]

theorem azimuth_mem_Ioc (c : Controls ℝ) :
    azimuth realMath c ∈ Set.Ioc (-Real.pi) Real.pi := by
  by_cases h : distance realMath c = 0
  · rw [azimuth_of_distance_eq_zero c h]
    exact ⟨by linarith [Real.pi_pos], Real.pi_pos.le⟩
  · rw [azimuth_of_distance_ne_zero c h]
    exact Complex.arg_mem_Ioc _

theorem azimuth_eq_of_coe_eq (c d : Controls ℝ)
    (h : ((azimuth realMath c : ℝ) : Real.Angle) = ((azimuth realMath d : ℝ) : Real.Angle)) :
    azimuth realMath c = azimuth realMath d := by
  rw [← Real.Angle.toReal_coe_eq_self_iff_mem_Ioc.2 (azimuth_mem_Ioc c),
    ← Real.Angle.toReal_coe_eq_self_iff_mem_Ioc.2 (azimuth_mem_Ioc d), h]

theorem arg_polar_coe (ρ β : ℝ) (hρ : 0 < ρ) :
    (Complex.arg ⟨ρ * Real.cos β, ρ * Real.sin β⟩ : Real.Angle) = (β : Real.Angle) := by
  have h : (⟨ρ * Real.cos β, ρ * Real.sin β⟩ : ℂ)
      = (ρ : ℂ) * ((Real.Angle.cos (β : Real.Angle) : ℂ)
          + (Real.Angle.sin (β : Real.Angle) : ℂ) * Complex.I) := by
    apply Complex.ext <;>
      simp [Real.Angle.cos_coe, Real.Angle.sin_coe, Complex.cos_ofReal_re,
        Complex.sin_ofReal_re, Complex.cos_ofReal_im, Complex.sin_ofReal_im]
  rw [h, Complex.arg_mul_cos_add_sin_mul_I_coe_angle hρ]

theorem sin_makeSafe_pos (s : Spherical ℝ) : 0 < Real.sin (s.makeSafe realMath).phi := by
  have hπ := Real.pi_gt_three
  have hlo : (0.000001 : ℝ) ≤ max 0.000001 (min (Real.pi - 0.000001) s.phi) :=
    le_max_left _ _
  have hhi : max 0.000001 (min (Real.pi - 0.000001) s.phi) ≤ Real.pi - 0.000001 :=
    max_le (by norm_num; linarith) (min_le_left _ _)
  apply Real.sin_pos_of_pos_of_lt_pi
  · exact lt_of_lt_of_le (by norm_num) hlo
  · exact lt_of_le_of_lt hhi (by norm_num)

theorem azimuth_rotateLeft (angle : ℝ) (c : Controls ℝ) (h : distance realMath c ≠ 0) :
    ((azimuth realMath (rotateLeft realMath angle c) : ℝ) : Real.Angle)
      = ((azimuth realMath c - angle : ℝ) : Real.Angle) := by
  have hne : distance realMath (rotateLeft realMath angle c) ≠ 0 := by
    rw [distance_rotateLeft]; exact h
  have hr : 0 < (c.position.sub c.target).length realMath :=
    lt_of_le_of_ne (length_nonneg _) (Ne.symm h)
  have hs := sin_makeSafe_pos
    { Spherical.setFromVector3 realMath (c.position.sub c.target) with
      theta := (Spherical.setFromVector3 realMath (c.position.sub c.target)).theta - angle }
  rw [azimuth_of_distance_ne_zero _ hne]
  simp only [rotateLeft, sub_add_self, Vector3.setFromSpherical, realMath_sin, realMath_cos]
  rw [arg_polar_coe _ _ (mul_pos hs (by simpa [Spherical.makeSafe, setFromVector3_radius] using hr))]
  rfl

end Auxiliary

/-! ## The claims -/

section Claims

/-- **C1** (evaluation of the code at the failing input).  With damping disabled
`update()` neither resets `scale` nor clears `panOffset`, so a second `update()`
applies the pending zoom again: from the state in which `dollyOut()` calls
`update()` (camera at `(0,0,100)`, target at the origin, `scale = 0.95`) the first
call puts the camera at `(0,0,95)` and the second at `(0,0,90.25)`. -/
theorem update_twice_moves_camera :
    (update realMath { defaults (⟨0, 0, 100⟩ : Vector3 ℝ) with scale := 0.95 }).position
        = ⟨0, 0, 95⟩
      ∧ (update realMath
          (update realMath { defaults (⟨0, 0, 100⟩ : Vector3 ℝ) with scale := 0.95 })).position
        = ⟨0, 0, 90.25⟩ := by
  constructor
  · rw [update_position]
    ext <;> norm_num [defaults, Vector3.add, Vector3.sub, Vector3.multiplyScalar]
  · rw [update_position, update_of_not_damping _ rfl]
    ext <;> norm_num [defaults, Vector3.add, Vector3.sub, Vector3.multiplyScalar]

/-- **C2** (evaluation of the code at the failing input).  From a camera at
distance `95` with `scale = 1`, `dollyIn()` followed by `dollyOut()` leaves the
camera at distance `100`: the scale `1 / 0.95` applied by the first call is still
stored when the second call multiplies it by `0.95`, so the second `update()`
scales the distance by `1`. -/
theorem dollyIn_dollyOut_distance :
    distance realMath (defaults (⟨0, 0, 95⟩ : Vector3 ℝ)) = 95
      ∧ distance realMath
          (dollyOut realMath (dollyIn realMath (defaults (⟨0, 0, 95⟩ : Vector3 ℝ)))) = 100 := by
  constructor
  · exact distance_defaults_z 95 (by norm_num) _ rfl rfl
  · apply distance_defaults_z 100 (by norm_num)
    · rw [dollyOut, update_position, dollyIn, update_of_not_damping _ rfl]
      ext <;> norm_num [defaults, Vector3.add, Vector3.sub, Vector3.multiplyScalar]
    · rw [dollyOut, update_of_not_damping _ (by rw [dollyIn, update_of_not_damping _ rfl]; rfl),
        dollyIn, update_of_not_damping _ rfl]
      ext <;> norm_num [defaults, Vector3.add]

/-- **C3**.  For every camera position and target and every finite sequence of
`rotateLeft(a)` and `rotateUp(b)` calls with arbitrary real angles, the distance
from the camera to the target after the sequence equals the distance before it. -/
theorem rotations_preserve_distance (rs : List (Rotation ℝ)) (c : Controls ℝ) :
    distance realMath (rotations realMath rs c) = distance realMath c := by
  induction rs generalizing c with
  | nil => rfl
  | cons r rs ih =>
    rw [rotations, List.foldl_cons]
    refine (ih (r.apply realMath c)).trans ?_
    cases r with
    | left angle => exact distance_rotateLeft angle c
    | up angle => exact distance_rotateUp angle c

/-- **C4** (evaluation of the code at the failing input).  From the camera at
`(1,0,0)` looking at the origin (distance `1`, polar angle `π / 2`), `rotateUp(π / 2)`
puts the camera at `(0,1,0)`, on the pole: the polar angle after the call is `0`,
below the bound `0.1`.  The clamped value is stored in `theta`, and `phi` is used
unclamped. -/
theorem rotateUp_reaches_pole :
    distance realMath (defaults (⟨1, 0, 0⟩ : Vector3 ℝ)) = 1
      ∧ polarAngle realMath (defaults (⟨1, 0, 0⟩ : Vector3 ℝ)) = Real.pi / 2
      ∧ (rotateUp realMath (Real.pi / 2) (defaults (⟨1, 0, 0⟩ : Vector3 ℝ))).position
          = ⟨0, 1, 0⟩
      ∧ polarAngle realMath
          (rotateUp realMath (Real.pi / 2) (defaults (⟨1, 0, 0⟩ : Vector3 ℝ))) = 0
      ∧ ¬ (0.1 ≤ polarAngle realMath
          (rotateUp realMath (Real.pi / 2) (defaults (⟨1, 0, 0⟩ : Vector3 ℝ)))) := by
  have hpos : (rotateUp realMath (Real.pi / 2) (defaults (⟨1, 0, 0⟩ : Vector3 ℝ))).position
      = ⟨0, 1, 0⟩ := by
    simp [rotateUp, defaults, Spherical.setFromVector3, Vector3.setFromSpherical,
      Vector3.sub, Vector3.add, clamp]
  have hphi : polarAngle realMath
      (rotateUp realMath (Real.pi / 2) (defaults (⟨1, 0, 0⟩ : Vector3 ℝ))) = 0 := by
    have ht : (rotateUp realMath (Real.pi / 2) (defaults (⟨1, 0, 0⟩ : Vector3 ℝ))).target
        = ⟨0, 0, 0⟩ := rfl
    simp [polarAngle, hpos, ht, Spherical.setFromVector3, Vector3.sub, clamp]
  refine ⟨?_, ?_, hpos, hphi, ?_⟩
  · simp [distance, defaults, Vector3.sub, Vector3.length]
  · simp [polarAngle, defaults, Spherical.setFromVector3, Vector3.sub, clamp]
  · rw [hphi]
    norm_num

/-- **C6** (evaluation of the code at the failing input).  From the camera at
`(0,0,1)` looking at the origin (distance `1`, polar angle `π / 2`, azimuth `0`),
`rotateUp(0)` puts the camera at `(1,0,0)`: the azimuth becomes `π / 2`, which is not
`0` modulo `2π`.  The azimuth is overwritten with the clamped polar angle. -/
theorem rotateUp_zero_changes_azimuth :
    distance realMath (defaults (⟨0, 0, 1⟩ : Vector3 ℝ)) = 1
      ∧ polarAngle realMath (defaults (⟨0, 0, 1⟩ : Vector3 ℝ)) = Real.pi / 2
      ∧ azimuth realMath (defaults (⟨0, 0, 1⟩ : Vector3 ℝ)) = 0
      ∧ (rotateUp realMath 0 (defaults (⟨0, 0, 1⟩ : Vector3 ℝ))).position = ⟨1, 0, 0⟩
      ∧ azimuth realMath (rotateUp realMath 0 (defaults (⟨0, 0, 1⟩ : Vector3 ℝ)))
          = Real.pi / 2
      ∧ ∀ k : ℤ, azimuth realMath (rotateUp realMath 0 (defaults (⟨0, 0, 1⟩ : Vector3 ℝ)))
          ≠ azimuth realMath (defaults (⟨0, 0, 1⟩ : Vector3 ℝ)) + k * (2 * Real.pi) := by
  have hπ := Real.pi_gt_three
  have hclamp : max (0.1 : ℝ) (min (Real.pi - 0.1) (Real.pi / 2)) = Real.pi / 2 := by
    rw [min_eq_right (by linarith), max_eq_right (by linarith)]
  have hpos : (rotateUp realMath 0 (defaults (⟨0, 0, 1⟩ : Vector3 ℝ))).position
      = ⟨1, 0, 0⟩ := by
    simp [rotateUp, defaults, Spherical.setFromVector3, Vector3.setFromSpherical,
      Vector3.sub, Vector3.add, clamp, hclamp]
  have ht : (rotateUp realMath 0 (defaults (⟨0, 0, 1⟩ : Vector3 ℝ))).target
      = ⟨0, 0, 0⟩ := rfl
  have haz0 : azimuth realMath (defaults (⟨0, 0, 1⟩ : Vector3 ℝ)) = 0 := by
    have h : (⟨1, 0⟩ : ℂ) = 1 := rfl
    simp [azimuth, defaults, Spherical.setFromVector3, Vector3.sub, h]
  have haz1 : azimuth realMath (rotateUp realMath 0 (defaults (⟨0, 0, 1⟩ : Vector3 ℝ)))
      = Real.pi / 2 := by
    have h : (⟨0, 1⟩ : ℂ) = Complex.I := rfl
    simp [azimuth, hpos, ht, Spherical.setFromVector3, Vector3.sub, h]
  refine ⟨?_, ?_, haz0, hpos, haz1, ?_⟩
  · simp [distance, defaults, Vector3.sub, Vector3.length]
  · simp [polarAngle, defaults, Spherical.setFromVector3, Vector3.sub, clamp]
  · intro k hk
    rw [haz0, haz1] at hk
    have h4 : (1 : ℝ) = 4 * k := by
      have hmul : Real.pi * (1 - 4 * k) = 0 := by linarith
      rcases mul_eq_zero.1 hmul with h | h
      · exact absurd h Real.pi_ne_zero
      · linarith
    have h4z : (1 : ℤ) = 4 * k := by exact_mod_cast h4
    omega

/-- **C5** (evaluation of the code at the failing input).  With the settings
`script.js` writes on a mobile device (`minDistance = 40`, `maxDistance = 800`) and
the camera at distance `40`, inside the bounds, one `dollyOut()` leaves the camera at
distance `38`, below `minDistance`: no method reads the two bounds. -/
theorem dollyOut_below_minDistance :
    ((configureMobile (defaults (⟨0, 0, 40⟩ : Vector3 ℝ))).minDistance
          ≤ distance realMath (configureMobile (defaults (⟨0, 0, 40⟩ : Vector3 ℝ)))
        ∧ WithTop.some (distance realMath (configureMobile (defaults (⟨0, 0, 40⟩ : Vector3 ℝ))))
          ≤ (configureMobile (defaults (⟨0, 0, 40⟩ : Vector3 ℝ))).maxDistance)
      ∧ distance realMath
          (dollyOut realMath (configureMobile (defaults (⟨0, 0, 40⟩ : Vector3 ℝ)))) = 38
      ∧ distance realMath
          (dollyOut realMath (configureMobile (defaults (⟨0, 0, 40⟩ : Vector3 ℝ))))
        < (dollyOut realMath (configureMobile (defaults (⟨0, 0, 40⟩ : Vector3 ℝ)))).minDistance := by
  have h40 : distance realMath (configureMobile (defaults (⟨0, 0, 40⟩ : Vector3 ℝ))) = 40 :=
    distance_defaults_z 40 (by norm_num) _ rfl rfl
  have h38 : distance realMath
      (dollyOut realMath (configureMobile (defaults (⟨0, 0, 40⟩ : Vector3 ℝ)))) = 38 := by
    rw [dollyOut, distance_update _ rfl]
    have h : distance realMath
        { configureMobile (defaults (⟨0, 0, 40⟩ : Vector3 ℝ)) with
          scale := (configureMobile (defaults (⟨0, 0, 40⟩ : Vector3 ℝ))).scale * 0.95 } = 40 :=
      distance_defaults_z 40 (by norm_num) _ rfl rfl
    rw [h]
    norm_num [configureMobile, configure, defaults, abs_of_nonneg]
  have hmin : (dollyOut realMath
      (configureMobile (defaults (⟨0, 0, 40⟩ : Vector3 ℝ)))).minDistance = 40 := by
    simp [dollyOut, update, configureMobile]
  refine ⟨⟨?_, ?_⟩, h38, ?_⟩
  · rw [h40]
    exact le_of_eq rfl
  · rw [h40]
    exact WithTop.coe_le_coe.2 (by norm_num)
  · rw [h38, hmin]
    norm_num

/-- **C7**.  Whatever the prior state (position, target, scale, pending pan,
damping on or off, any damping factor), after `reset()` the target is the origin,
`scale` is `1` and the pending `panOffset` is zero. -/
theorem reset_target_scale_panOffset (c : Controls ℝ) :
    (reset realMath c).target = ⟨0, 0, 0⟩
      ∧ (reset realMath c).scale = 1
      ∧ (reset realMath c).panOffset = ⟨0, 0, 0⟩ := by
  cases hd : c.enableDamping <;>
    simp [reset, update, hd, Vector3.add, Vector3.multiplyScalar]

/-- **C8**.  For every state and every real `θ`, `rotateLeft(θ)` followed by
`rotateLeft(-θ)` restores the azimuth `theta = atan2(x, z)` of `position - target`:
the two values are equal, in particular equal modulo `2π`. -/
theorem rotateLeft_neg_restores_azimuth (c : Controls ℝ) (θ : ℝ) :
    azimuth realMath (rotateLeft realMath (-θ) (rotateLeft realMath θ c))
        = azimuth realMath c
      ∧ ∃ k : ℤ, azimuth realMath (rotateLeft realMath (-θ) (rotateLeft realMath θ c))
          = azimuth realMath c + k * (2 * Real.pi) := by
  have heq : azimuth realMath (rotateLeft realMath (-θ) (rotateLeft realMath θ c))
      = azimuth realMath c := by
    by_cases h : distance realMath c = 0
    · rw [azimuth_of_distance_eq_zero c h]
      apply azimuth_of_distance_eq_zero
      rw [distance_rotateLeft, distance_rotateLeft, h]
    · apply azimuth_eq_of_coe_eq
      have h1 : distance realMath (rotateLeft realMath θ c) ≠ 0 := by
        rw [distance_rotateLeft]; exact h
      rw [azimuth_rotateLeft (-θ) _ h1, Real.Angle.coe_sub, azimuth_rotateLeft θ c h,
        Real.Angle.coe_sub, Real.Angle.coe_neg]
      abel
  exact ⟨heq, 0, by rw [heq]; simp⟩

/-- **C9**.  With damping enabled, `0 < dampingFactor < 1` and a nonzero pending
pan offset `p`, the target displacement made by the `n`-th of a run of consecutive
`update()` calls is `p * (1 - dampingFactor) ^ n`; its length strictly decreases
with `n` and tends to `0`. -/
theorem update_damping_displacement (c : Controls ℝ) (hd : c.enableDamping = true)
    (h0 : 0 < c.dampingFactor) (h1 : c.dampingFactor < 1)
    (hp : c.panOffset ≠ ⟨0, 0, 0⟩) :
    (∀ n, 1 ≤ n →
        displacement realMath c n
          = c.panOffset.multiplyScalar ((1 - c.dampingFactor) ^ n))
      ∧ (∀ n, 1 ≤ n →
        (displacement realMath c (n + 1)).length realMath
          < (displacement realMath c n).length realMath)
      ∧ Filter.Tendsto (fun n => (displacement realMath c n).length realMath)
          Filter.atTop (nhds 0) := by
  have hq0 : 0 < 1 - c.dampingFactor := by linarith
  have hq1 : 1 - c.dampingFactor < 1 := by linarith
  have hlen : 0 < c.panOffset.length realMath :=
    lt_of_le_of_ne (length_nonneg _) (fun h => hp ((length_eq_zero_iff _).1 h.symm))
  have hdisp : ∀ n, 1 ≤ n →
      displacement realMath c n
        = c.panOffset.multiplyScalar ((1 - c.dampingFactor) ^ n) := by
    intro n hn
    obtain ⟨m, rfl⟩ : ∃ m, n = m + 1 := ⟨n - 1, by omega⟩
    exact displacement_succ c hd m
  have hlenn : ∀ n, 1 ≤ n →
      (displacement realMath c n).length realMath
        = (1 - c.dampingFactor) ^ n * c.panOffset.length realMath := by
    intro n hn
    rw [hdisp n hn, length_multiplyScalar, abs_of_pos (pow_pos hq0 n)]
  refine ⟨hdisp, ?_, ?_⟩
  · intro n hn
    rw [hlenn n hn, hlenn (n + 1) (by omega)]
    have hpow : (1 - c.dampingFactor) ^ (n + 1) < (1 - c.dampingFactor) ^ n := by
      rw [pow_succ]
      exact mul_lt_of_lt_one_right (pow_pos hq0 n) hq1
    exact mul_lt_mul_of_pos_right hpow hlen
  · have ht : Filter.Tendsto
        (fun n : ℕ => (1 - c.dampingFactor) ^ n * c.panOffset.length realMath)
        Filter.atTop (nhds 0) := by
      have := (tendsto_pow_atTop_nhds_zero_of_lt_one hq0.le hq1).mul_const
        (c.panOffset.length realMath)
      simpa using this
    refine ht.congr' ?_
    filter_upwards [Filter.eventually_ge_atTop 1] with n hn
    exact (hlenn n hn).symm

/-- Witness for **C9**: the controls as `script.js` configures them (damping on,
factor `0.25`) with a pending pan of `(1,0,0)`; the second `update()` moves the
target by `(0.5625,0,0)`. -/
theorem update_damping_displacement_witness :
    ({ configure (defaults (⟨0, 0, 200⟩ : Vector3 ℝ)) with
        panOffset := ⟨1, 0, 0⟩ } : Controls ℝ).enableDamping = true
      ∧ (0 : ℝ) < (configure (defaults (⟨0, 0, 200⟩ : Vector3 ℝ))).dampingFactor
      ∧ (configure (defaults (⟨0, 0, 200⟩ : Vector3 ℝ))).dampingFactor < 1
      ∧ (⟨1, 0, 0⟩ : Vector3 ℝ) ≠ ⟨0, 0, 0⟩
      ∧ displacement realMath
          ({ configure (defaults (⟨0, 0, 200⟩ : Vector3 ℝ)) with
              panOffset := ⟨1, 0, 0⟩ } : Controls ℝ) 2
        = ⟨0.5625, 0, 0⟩ := by
  have h := (update_damping_displacement
    ({ configure (defaults (⟨0, 0, 200⟩ : Vector3 ℝ)) with
        panOffset := ⟨1, 0, 0⟩ } : Controls ℝ)
    rfl (by norm_num [configure]) (by norm_num [configure])
    (by simp)).1 2 (by norm_num)
  refine ⟨rfl, by norm_num [configure], by norm_num [configure], by simp, ?_⟩
  rw [h]
  ext <;> norm_num [configure, Vector3.multiplyScalar]

/-- **C10**.  With damping disabled, `scale = 1` and no pending pan, one
`dollyOut()` multiplies the camera-to-target distance by exactly `0.95` and leaves
the target unchanged. -/
theorem dollyOut_distance (c : Controls ℝ) (hd : c.enableDamping = false)
    (hs : c.scale = 1) (hp : c.panOffset = ⟨0, 0, 0⟩) :
    distance realMath (dollyOut realMath c) = 0.95 * distance realMath c
      ∧ (dollyOut realMath c).target = c.target := by
  constructor
  · have h := distance_update { c with scale := c.scale * 0.95 } hp
    have hdist : distance realMath { c with scale := c.scale * 0.95 } = distance realMath c :=
      rfl
    rw [dollyOut, h, hdist]
    simp only [hs]
    norm_num [abs_of_nonneg]
  · have h := update_of_not_damping { c with scale := c.scale * 0.95 } hd
    rw [dollyOut, h]
    simp only [hp, add_zero_vec]

/-- Witness for **C10**: the camera at `(0,0,100)` looking at the origin ends at
distance `95` with the target still at the origin. -/
theorem dollyOut_distance_witness :
    (defaults (⟨0, 0, 100⟩ : Vector3 ℝ)).enableDamping = false
      ∧ (defaults (⟨0, 0, 100⟩ : Vector3 ℝ)).scale = 1
      ∧ (defaults (⟨0, 0, 100⟩ : Vector3 ℝ)).panOffset = ⟨0, 0, 0⟩
      ∧ distance realMath (dollyOut realMath (defaults (⟨0, 0, 100⟩ : Vector3 ℝ))) = 95
      ∧ (dollyOut realMath (defaults (⟨0, 0, 100⟩ : Vector3 ℝ))).target = ⟨0, 0, 0⟩ := by
  have h := dollyOut_distance (defaults (⟨0, 0, 100⟩ : Vector3 ℝ)) rfl rfl rfl
  have h100 : distance realMath (defaults (⟨0, 0, 100⟩ : Vector3 ℝ)) = 100 :=
    distance_defaults_z 100 (by norm_num) _ rfl rfl
  refine ⟨rfl, rfl, rfl, ?_, h.2⟩
  rw [h.1, h100]
  norm_num

end Claims

end OrbitControls
